import Mathlib

/-!
Verification of the Home_budget Telegram-bot conversation core.

This file shallowly embeds the per-user conversational state machine of the
repository (src/utils.py, src/handlers/base_handler.py,
src/handlers/expense_handler.py, src/handlers/income_handler.py,
src/handlers/analytics_handler.py, src/database.py) and proves the frozen
claims about it.

Embedding conventions:
- Python floats are modelled by `PyFloat`: a finite rational, positive and
  negative infinity, or NaN, with IEEE-754-style comparison semantics
  (every comparison involving NaN is false).  The string-to-float parse
  performed by the Python call `float(...)` is passed to `validate_value` as an
  already-parsed `Option PyFloat` (`none` is the `ValueError` case); the
  claims quantify over the parse result, which is exactly this option.
  Note that the Python call `float("nan")` succeeds and yields NaN.
- Strings are Lean `String`s; `pyStrip` models the Python method `str.strip()` on
  the ASCII whitespace characters (all that the claims exercise), and
  `pyLower` models `str.lower()` (ASCII case folding, which agrees with
  Python on the texts the handlers compare).
- A handler is a pure function from its inputs (user id, message text or
  its parse, the session store, the sheet contents, and booleans standing
  for the success or failure of the external Google-Sheets calls) to the
  new session store, the new sheet contents, and the replies sent.
  Exceptions in the Python code are modelled by the branch they produce:
  a `ValidationError` becomes the `Except.error` branch of the validator,
  a `KeyError` on a missing `user_data` entry becomes the `none` branch of
  the store lookup, and a raising Google-Sheets call is the `false` value
  of the corresponding success flag (`append_row`, `delete_row`,
  `append_income_row` and `delete_income_row` in src/database.py either
  return `True` or raise `GoogleSheetsError`).
- The session store `user_data` is a function `Nat → Option Session`;
  `setUser` is dictionary assignment.  A Python session dict with optional
  keys becomes a `Session` record of `Option` fields (`none` = key absent);
  the empty dict `{}` is `Session.empty`.
- Sheet rows are `List Cell`; `Cell.num v` is a cell holding the float `v`
  itself (the expense flow appends the float), `Cell.numStr v` is a cell
  holding the `str(v)` rendering Python produces (the income flow appends the string;
  its exact spelling is irrelevant to every claim and is kept symbolic).
- The allow-list `AUTHORIZED_USERS`, the category list `CATEGORIES` and
  the income-type list `INCOME_TYPES` live in a `settings.py` that is not
  part of the sources; they are static configuration and are passed to the
  handlers as explicit parameters.
- Replies whose text interpolates session values are kept as symbolic
  `Reply` constructors carrying the interpolated data; fixed texts are
  `Reply.msg` with the literal string from the source.
-/

/-! ## Python float values (src/utils.py uses `float(value)` comparisons) -/

/-- The value domain of a Python float: a finite rational, an infinity, or
NaN.  The finite rational is the exact value of the binary64 float. -/
inductive PyFloat
  | finite (q : ℚ)
  | inf
  | negInf
  | nan
deriving DecidableEq, Repr

/-- IEEE-754 `<=` on Python floats: any comparison with NaN is false. -/
def PyFloat.le : PyFloat → PyFloat → Bool
  | .nan, _ => false
  | _, .nan => false
  | .finite p, .finite q => decide (p ≤ q)
  | .negInf, _ => true
  | _, .inf => true
  | .inf, _ => false
  | .finite _, .negInf => false

/-- IEEE-754 `<` on Python floats: any comparison with NaN is false. -/
def PyFloat.lt : PyFloat → PyFloat → Bool
  | .nan, _ => false
  | _, .nan => false
  | .finite p, .finite q => decide (p < q)
  | .negInf, .negInf => false
  | .negInf, _ => true
  | _, .negInf => false
  | .inf, _ => false
  | .finite _, .inf => true

/-- Is the float a finite number (not ±inf, not NaN)? -/
def PyFloat.isFinite : PyFloat → Bool
  | .finite _ => true
  | _ => false

/-! ## Validators (src/utils.py) -/

/-- Constant `MAX_VALUE = 10000000` from src/utils.py line 8. -/
def MAX_VALUE : ℚ := 10000000

/-- Constant `MAX_DESCRIPTION_LENGTH = 200` from src/utils.py line 9. -/
def MAX_DESCRIPTION_LENGTH : Nat := 200

/-- Function `validate_value` from src/utils.py lines 14-22.  The argument is the
result of the Python call `float(value)`: `none` when that call raises
`ValueError` (non-numeric text), `some v` when it parses to the float `v`.
The body rejects when `num_value <= 0 or num_value > MAX_VALUE` and
otherwise returns the parsed float; the `ValueError` handler rejects with
the fixed parse-failure message.  Errors carry the message string of the
`ValidationError` raised. -/
def validate_value (p : Option PyFloat) : Except String PyFloat :=
  match p with
  | none => .error "Please enter a valid number"
  | some v =>
    if v.le (.finite 0) || (PyFloat.finite MAX_VALUE).lt v then
      .error "Value must be between 0 and 10000000"
    else
      .ok v

/-- Python `str.strip()` whitespace test (ASCII range): space, tab,
newline, carriage return, vertical tab, form feed. -/
def isPySpace (c : Char) : Bool :=
  c == ' ' || c == '\t' || c == '\n' || c == '\r' || c == '\x0b' || c == '\x0c'

/-- Python `str.strip()` on the character list: drop leading and trailing
whitespace. -/
def pyStripL (l : List Char) : List Char :=
  ((l.dropWhile isPySpace).reverse.dropWhile isPySpace).reverse

/-- Python `description.strip()`. -/
def pyStrip (s : String) : String :=
  String.mk (pyStripL s.data)

/-- Function `validate_description` from src/utils.py lines 24-30.  Note that the
emptiness test is on the stripped string (`if not description.strip()`)
but the length test is on the raw, unstripped argument
(`if len(description) > MAX_DESCRIPTION_LENGTH`); the returned value is
the stripped string. -/
def validate_description (d : String) : Except String String :=
  if pyStrip d = "" then
    .error "Description cannot be empty"
  else if d.length > MAX_DESCRIPTION_LENGTH then
    .error "Description cannot be longer than 200 characters"
  else
    .ok (pyStrip d)

/-! ## Sessions and the session store (BaseHandler.user_data) -/

/-- The `step` strings stored in `user_data[...]["step"]` across the
expense, delete and income flows. -/
inductive Step
  | payment_type
  | value
  | description
  | category
  | confirmation
  | delete_confirmation
  | income_value
  | income_description
  | income_type
  | income_confirmation
  | income_delete_confirmation
deriving DecidableEq, Repr

/-- The session dict of one user.  Every Python dict key becomes an `Option`
field (`none` = key absent); `in_income_menu` defaults to `False` exactly
as `.get("in_income_menu", False)` does.  The Python key `"type"` (income
type) is the field `type`. -/
structure Session where
  step : Option Step := none
  payment_type : Option String := none
  date : Option String := none
  year_month : Option String := none
  value : Option PyFloat := none
  description : Option String := none
  category : Option String := none
  last_row_index : Option Nat := none
  in_income_menu : Bool := false
  type : Option String := none
deriving DecidableEq, Repr

/-- The empty dict `{}`. -/
def Session.empty : Session := {}

/-- Field `BaseHandler.user_data`: a mapping from user id to session dict. -/
def UserStore : Type := Nat → Option Session

/-- Dictionary assignment `user_data[uid] = s`. -/
def setUser (st : UserStore) (uid : Nat) (s : Session) : UserStore :=
  fun u => if u = uid then some s else st u

/-- A store with no entries (fresh `user_data = {}`). -/
def emptyStore : UserStore := fun _ => none

/-- Lookup `user_data.get(uid, {}).get("step")`, the lookup used by the handler
registration predicates. -/
def stepOf (st : UserStore) (uid : Nat) : Option Step :=
  (st uid).bind Session.step

/-! ## Sheet rows and replies -/

/-- One cell of a sheet row: a string, a float appended as such (the
expense flow passes `data["value"]`, a float), or the `str(...)` rendering
of a float (the income flow passes `str(user_data["value"])`; the rendered
spelling is kept symbolic since no claim depends on it). -/
inductive Cell
  | str (s : String)
  | num (v : PyFloat)
  | numStr (v : PyFloat)
deriving DecidableEq, Repr

/-- A sheet row, in sheet column order. -/
abbrev Row : Type := List Cell

/-- A reply sent to the user.  Fixed texts are `msg` with the literal
string from the source; texts that interpolate data are symbolic
constructors carrying that data. -/
inductive Reply
  | msg (s : String)
  | selectedPayment (p : String)
  | expenseSummary (date : String) (value : PyFloat) (descr : String)
      (cat : String) (pay : String) (ym : String)
  | deleteRowPrompt (row : Row)
  | incomeDeletePrompt (row : Row)
  | incomeSaved (value : PyFloat) (pay : String) (descr : String)
deriving DecidableEq, Repr

/-- The fixed rejection text sent by `BaseHandler._handle_unauthorized`
(src/handlers/base_handler.py lines 18-24). -/
def unauthorizedText : String :=
  "⛔️ Sorry, you are not authorized to use this bot.\nPlease contact the administrator for access."

/-- The catch-all failure text used by the expense-flow handlers. -/
def somethingWrongText : String :=
  "Sorry, something went wrong. Please try again later."

/-- Failure text of `delete_last_row_confirm`. -/
def failPrepareText : String :=
  "❌ Failed to prepare deletion. Please try again later."

/-! ## Authorization and small string helpers -/

/-- Predicate `BaseHandler._is_authorized`: `user_id in AUTHORIZED_USERS`.  The
allow-list comes from `settings.py` (static configuration, not under
src/) and is passed explicitly. -/
def is_authorized (allow : List Nat) (uid : Nat) : Bool :=
  allow.contains uid

/-- Python substring test `needle in hay` (used by
`"RUB" in message.text`). -/
def containsSub (needle hay : String) : Bool :=
  hay.data.tails.any (fun t => needle.data.isPrefixOf t)

/-- Python `str.lower()` (ASCII case folding; agrees with Python on the
handler texts). -/
def pyLower (s : String) : String :=
  String.mk (s.data.map Char.toLower)

/-! ## Expense-flow handlers (src/handlers/expense_handler.py) -/

/-- Handler `ExpenseHandler.start` (lines 37-49): authorization check first; when
authorized, overwrite the session with `{"step": "payment_type"}` and
greet; when not, send the fixed rejection and change nothing.  (The
apostrophe of the greeting text is elided.) -/
def start (allow : List Nat) (uid : Nat) (st : UserStore) :
    UserStore × List Reply :=
  if is_authorized allow uid then
    (setUser st uid { Session.empty with step := some Step.payment_type },
     [Reply.msg "Hello, lets start!"])
  else
    (st, [Reply.msg unauthorizedText])

/-- Handler `ExpenseHandler.handle_payment_type` (lines 51-73): authorization
check first; when authorized, overwrite the session with a fresh dict
holding the payment type (`"RUB"` when the text contains `"RUB"`, else
`"RSD"`), the current date and year-month stamps (passed as parameters),
and `step = "value"`. -/
def handle_payment_type (allow : List Nat) (uid : Nat) (text : String)
    (today ym : String) (st : UserStore) : UserStore × List Reply :=
  if is_authorized allow uid then
    let p : String := if containsSub "RUB" text then "RUB" else "RSD"
    (setUser st uid
      { Session.empty with
        payment_type := some p, date := some today, year_month := some ym,
        step := some Step.value },
     [Reply.selectedPayment p])
  else
    (st, [Reply.msg unauthorizedText])

/-- Handler `ExpenseHandler.handle_value` (lines 75-88): `validate_value` runs
first; on `ValidationError` the error message is replied and nothing is
touched.  On success `user_data[uid]["value"]` and `["step"]` are
assigned; a missing entry would raise `KeyError`, caught by the generic
handler (store unchanged, generic failure reply). -/
def handle_value (uid : Nat) (parsed : Option PyFloat) (st : UserStore) :
    UserStore × List Reply :=
  match validate_value parsed with
  | .error e => (st, [Reply.msg e])
  | .ok v =>
    match st uid with
    | none => (st, [Reply.msg somethingWrongText])
    | some s =>
      (setUser st uid { s with value := some v, step := some Step.description },
       [Reply.msg "Enter the description:"])

/-- Handler `ExpenseHandler.handle_description` (lines 90-103): same shape as
`handle_value` with `validate_description`. -/
def handle_description (uid : Nat) (text : String) (st : UserStore) :
    UserStore × List Reply :=
  match validate_description text with
  | .error e => (st, [Reply.msg e])
  | .ok d =>
    match st uid with
    | none => (st, [Reply.msg somethingWrongText])
    | some s =>
      (setUser st uid { s with description := some d, step := some Step.category },
       [Reply.msg "Choose a category:"])

/-- Handler `ExpenseHandler.handle_category` (lines 105-131): a text outside
`CATEGORIES` is rejected with no state change.  Otherwise
`user_data[uid]["category"]` and `["step"]` are assigned (a missing entry
raises `KeyError`: generic reply, no change), and then the confirmation
summary is built from `data["date"]`, `data["value"]`, ..., which raises
`KeyError` if a field is absent - after the mutation already happened. -/
def handle_category (cats : List String) (uid : Nat) (text : String)
    (st : UserStore) : UserStore × List Reply :=
  if text ∈ cats then
    match st uid with
    | none => (st, [Reply.msg somethingWrongText])
    | some s =>
      let s2 : Session := { s with category := some text, step := some Step.confirmation }
      let st2 : UserStore := setUser st uid s2
      match s2.date, s2.value, s2.description, s2.payment_type, s2.year_month with
      | some d, some v, some ds, some p, some ym =>
        (st2, [Reply.expenseSummary d v ds text p ym])
      | _, _, _, _, _ => (st2, [Reply.msg somethingWrongText])
  else
    (st, [Reply.msg "Invalid category. Please choose a valid category."])

/-- Handler `ExpenseHandler.handle_confirmation` (lines 133-162).  `username` is
`message.from_user.username` (`none` models a falsy username, replaced by
`"No username"`).  On `"Yes"` the row
`[date, value, description, category, payment_type, year_month, user]` is
appended inside an inner try: a raising `append_row` (`appendOk = false`)
or a `KeyError` from a missing field yields the failure reply with no
append.  A missing session entry raises `KeyError` at `data = ...`,
caught by the outer handler.  The `finally` block always resets the
session to `{"step": "payment_type"}`. -/
def handle_confirmation (uid : Nat) (text : String) (username : Option String)
    (appendOk : Bool) (st : UserStore) (db : List Row) :
    UserStore × List Row × List Reply :=
  if text = "Yes" then
    match st uid with
    | none =>
      (setUser st uid { Session.empty with step := some Step.payment_type },
       db, [Reply.msg somethingWrongText])
    | some data =>
      match data.date, data.value, data.description, data.category,
          data.payment_type, data.year_month with
      | some d, some v, some ds, some c, some p, some ym =>
        if appendOk then
          (setUser st uid { Session.empty with step := some Step.payment_type },
           db ++ [[Cell.str d, Cell.num v, Cell.str ds, Cell.str c,
                   Cell.str p, Cell.str ym, Cell.str (username.getD "No username")]],
           [Reply.msg "✅ Expense recorded successfully!"])
        else
          (setUser st uid { Session.empty with step := some Step.payment_type },
           db, [Reply.msg "❌ Failed to record expense. Please try again later."])
      | _, _, _, _, _, _ =>
        (setUser st uid { Session.empty with step := some Step.payment_type },
         db, [Reply.msg "❌ Failed to record expense. Please try again later."])
  else
    (setUser st uid { Session.empty with step := some Step.payment_type },
     db, [Reply.msg "Expense recording cancelled. Choose payment type:"])

/-- Handler `ExpenseHandler.delete_last_row_confirm` (lines 179-199): on an empty
sheet, report and change nothing.  Otherwise `format_expense_entry`
(src/utils.py lines 66-76) indexes the last row at 0..6 - a shorter row
raises `IndexError` before any mutation (failure reply, no change).  Then
`user_data[uid]["step"]` is assigned: a missing entry raises `KeyError`
(failure reply, no entry created); otherwise the step becomes
`"delete_confirmation"` and `last_row_index` captures `len(all_rows)`,
the current 1-based position of the last row. -/
def delete_last_row_confirm (uid : Nat) (st : UserStore) (db : List Row) :
    UserStore × List Reply :=
  if db.isEmpty then
    (st, [Reply.msg "No data to delete."])
  else
    let last : Row := db.getLastD []
    if 7 ≤ last.length then
      match st uid with
      | none => (st, [Reply.msg failPrepareText])
      | some s =>
        (setUser st uid
          { s with step := some Step.delete_confirmation,
                   last_row_index := some db.length },
         [Reply.deleteRowPrompt last])
    else
      (st, [Reply.msg failPrepareText])

/-- Handler `ExpenseHandler.handle_delete_confirmation` (lines 201-220): fires on
any text (the registration predicate has no text filter); the branch test
is `message.text.lower() == "yes"`.  In the yes-branch,
`user_data[uid].get("last_row_index")` raises `KeyError` when the entry
is missing (failure reply); a present index is used truthily (`None` and
`0` both fall to the not-found reply) and `delete_row` removes the row at
that 1-based position (`deleteOk = false` is the raising call: failure
reply, sheet unchanged).  Any other text reports cancellation.  The
`finally` block always resets the session to `{"step": "payment_type"}`,
creating the entry if absent. -/
def handle_delete_confirmation (uid : Nat) (text : String) (deleteOk : Bool)
    (st : UserStore) (db : List Row) : UserStore × List Row × List Reply :=
  if pyLower text = "yes" then
    match st uid with
    | none =>
      (setUser st uid { Session.empty with step := some Step.payment_type },
       db, [Reply.msg "❌ Failed to delete row. Please try again later."])
    | some data =>
      match data.last_row_index with
      | some n =>
        if n ≠ 0 then
          if deleteOk then
            (setUser st uid { Session.empty with step := some Step.payment_type },
             db.eraseIdx (n - 1), [Reply.msg "✅ Last row deleted successfully!"])
          else
            (setUser st uid { Session.empty with step := some Step.payment_type },
             db, [Reply.msg "❌ Failed to delete row. Please try again later."])
        else
          (setUser st uid { Session.empty with step := some Step.payment_type },
           db, [Reply.msg "❌ Could not find the last row to delete."])
      | none =>
        (setUser st uid { Session.empty with step := some Step.payment_type },
         db, [Reply.msg "❌ Could not find the last row to delete."])
  else
    (setUser st uid { Session.empty with step := some Step.payment_type },
     db, [Reply.msg "Deletion cancelled."])

/-- Handler `ExpenseHandler.help_command` (lines 238-257): authorization check
first; authorized users get the fixed help text. -/
def help_command (allow : List Nat) (uid : Nat) (st : UserStore) :
    UserStore × List Reply :=
  if is_authorized allow uid then
    (st, [Reply.msg "🤖 *Budget Bot Help*"])
  else
    (st, [Reply.msg unauthorizedText])

/-! ## Analytics entry (src/handlers/analytics_handler.py) -/

/-- Handler `AnalyticsHandler.analytics_button` (lines 26-31): replies with the
analytics keyboard prompt.  The body performs no authorization check and
never touches `user_data`. -/
def analytics_button (uid : Nat) (st : UserStore) : UserStore × List Reply :=
  (st, [Reply.msg "Available analytics:"])

/-! ## Registration predicates (ExpenseHandler._register_handlers,
lines 17-35) -/

/-- The lambda guarding `handle_confirmation`:
`user_data.get(uid, \x7b\x7d).get("step") == "confirmation" and
m.text in ["Yes", "No"]`. -/
def accepts_confirmation (st : UserStore) (uid : Nat) (text : String) : Bool :=
  decide (stepOf st uid = some Step.confirmation) &&
    (text == "Yes" || text == "No")

/-- The lambda guarding `handle_delete_confirmation`:
`user_data.get(uid, \x7b\x7d).get("step") == "delete_confirmation"` -
note: no condition on the message text. -/
def accepts_delete_confirmation (st : UserStore) (uid : Nat)
    (text : String) : Bool :=
  decide (stepOf st uid = some Step.delete_confirmation)

/-! ## Income-flow handlers (src/handlers/income_handler.py) -/

/-- Handler `IncomeHandler.handle_income_confirmation` (lines 127-165).  On
`"Yes"`: `user_data[uid]` is read (missing entry raises `KeyError`,
caught: failure reply, nothing changes - the reset line is the last
statement of the `try` block, not a `finally`); the row
`[date, str(value), description, type, payment_type, year_month, user]`
is built (a missing field raises `KeyError`: failure reply, no reset) and
`append_income_row` is called - that call either returns `True` or raises
`GoogleSheetsError` (src/database.py lines 82-90), so `appendOk = false`
is the raising case: failure reply and, again, no reset.  Only the
non-raising paths reach the reset, which assigns the empty dict `{}`. -/
def handle_income_confirmation (uid : Nat) (text : String)
    (userLabel today ym : String) (appendOk : Bool) (st : UserStore)
    (db : List Row) : UserStore × List Row × List Reply :=
  if text = "Yes" then
    match st uid with
    | none => (st, db, [Reply.msg "❌ Failed to process confirmation. Please try again."])
    | some data =>
      match data.value, data.description, data.type, data.payment_type with
      | some v, some ds, some ty, some p =>
        if appendOk then
          (setUser st uid Session.empty,
           db ++ [[Cell.str today, Cell.numStr v, Cell.str ds, Cell.str ty,
                   Cell.str p, Cell.str ym, Cell.str userLabel]],
           [Reply.incomeSaved v p ds])
        else
          (st, db, [Reply.msg "❌ Failed to process confirmation. Please try again."])
      | _, _, _, _ =>
        (st, db, [Reply.msg "❌ Failed to process confirmation. Please try again."])
  else
    (setUser st uid Session.empty, db, [Reply.msg "❌ Income entry cancelled."])

/-- Handler `IncomeHandler.delete_last_income_row_confirm` (lines 193-217):
authorization check first; a sheet holding at most the header row is
reported empty.  Otherwise the session is overwritten with the fresh dict
`{"step": "income_delete_confirmation"}` - unlike the expense flow, no
row index is captured - and the last row is shown for confirmation
(`format_income_entry` is not under src/; the prompt is symbolic). -/
def delete_last_income_row_confirm (allow : List Nat) (uid : Nat)
    (st : UserStore) (db : List Row) : UserStore × List Reply :=
  if is_authorized allow uid then
    if db.length ≤ 1 then
      (st, [Reply.msg "💰 No income entries to delete."])
    else
      (setUser st uid { Session.empty with step := some Step.income_delete_confirmation },
       [Reply.incomeDeletePrompt (db.getLastD [])])
  else
    (st, [Reply.msg unauthorizedText])

/-- Handler `IncomeHandler.handle_income_delete_confirmation` (lines 219-244).
On exactly `"Yes"` (no `.lower()` here) the sheet is re-read and the
index to delete is re-derived as the current `len(data)`; `deleteOk =
false` is the raising `delete_income_row` call (src/database.py lines
92-100): failure reply and no reset, since the reset is the last
statement of the `try` block.  Non-raising paths reset the session to the
empty dict `{}`. -/
def handle_income_delete_confirmation (uid : Nat) (text : String)
    (deleteOk : Bool) (st : UserStore) (db : List Row) :
    UserStore × List Row × List Reply :=
  if text = "Yes" then
    if 1 < db.length then
      if deleteOk then
        (setUser st uid Session.empty, db.eraseIdx (db.length - 1),
         [Reply.msg "✅ Last income entry deleted successfully!"])
      else
        (st, db, [Reply.msg "❌ Failed to process deletion. Please try again."])
    else
      (setUser st uid Session.empty, db, [Reply.msg "💰 No income entries to delete."])
  else
    (setUser st uid Session.empty, db, [Reply.msg "❌ Deletion cancelled."])

/-! ## Concrete fixtures used by counterexamples and witnesses -/

/-- Did the call reject (raise `ValidationError`)? -/
def isErr {e a : Type} : Except e a → Bool
  | .error _ => true
  | .ok _ => false

/-- A description of one space followed by 200 letters: its raw length is
201 but its stripped length is 200. -/
def exDescr : String := String.mk (' ' :: List.replicate 200 'a')

/-- A well-formed 7-cell sheet row. -/
def rowA : Row := List.replicate 7 (Cell.str "A")

/-- A second, distinct 7-cell sheet row. -/
def rowB : Row := List.replicate 7 (Cell.str "B")

/-- The header row the income sheet always carries
(src/database.py line 33). -/
def hdrRow : Row :=
  [Cell.str "date", Cell.str "value", Cell.str "description", Cell.str "type",
   Cell.str "payment_type", Cell.str "year_month", Cell.str "user"]

/-- A fully accumulated income-confirmation session. -/
def sessIncomeConf : Session :=
  { Session.empty with
      step := some Step.income_confirmation,
      value := some (PyFloat.finite 5), description := some "salary",
      type := some "Зарплата", payment_type := some "RUB" }

/-- A one-user store holding `sessIncomeConf` for user 1. -/
def stIncomeConf : UserStore := setUser emptyStore 1 sessIncomeConf

/-! ## Helper lemmas about positional deletion -/

theorem eraseIdx_append_of_lt_length {α : Type} (l l2 : List α) (i : Nat)
    (h : i < l.length) : (l ++ l2).eraseIdx i = l.eraseIdx i ++ l2 := by
  induction l generalizing i with
  | nil => simp at h
  | cons a t ih =>
    cases i with
    | zero => simp
    | succ j =>
      simp only [List.cons_append, List.eraseIdx_cons_succ, List.cons_append]
      rw [ih j (by simpa using h)]

theorem eraseIdx_last_eq_dropLast {α : Type} (l : List α) :
    l.eraseIdx (l.length - 1) = l.dropLast := by
  induction l with
  | nil => rfl
  | cons a t ih =>
    cases t with
    | nil => rfl
    | cons b t2 =>
      simp only [List.length_cons, Nat.add_sub_cancel, List.eraseIdx_cons_succ,
        List.dropLast_cons₂]
      simpa using ih

theorem setUser_same (st : UserStore) (uid : Nat) (s : Session) :
    setUser st uid s uid = some s := by
  simp [setUser]

/-- The expense confirmation handler resets the session to
`{"step": "payment_type"}` on every branch (its `finally` block). -/
theorem handle_confirmation_fst (uid : Nat) (text : String)
    (username : Option String) (ok : Bool) (st : UserStore) (db : List Row) :
    (handle_confirmation uid text username ok st db).1 =
      setUser st uid { Session.empty with step := some Step.payment_type } := by
  unfold handle_confirmation
  split
  · split
    · rfl
    · split
      · split <;> rfl
      · rfl
  · rfl

/-- The expense delete-confirmation handler resets the session to
`{"step": "payment_type"}` on every branch (its `finally` block). -/
theorem handle_delete_confirmation_fst (uid : Nat) (text : String)
    (ok : Bool) (st : UserStore) (db : List Row) :
    (handle_delete_confirmation uid text ok st db).1 =
      setUser st uid { Session.empty with step := some Step.payment_type } := by
  unfold handle_delete_confirmation
  split
  · split
    · rfl
    · split
      · split
        · split <;> rfl
        · rfl
      · rfl
  · rfl

/-- Supporting characterization: `validate_value` accepts exactly NaN and
the finite values in `(0, MAX_VALUE]`; parse failures, nonpositive or
too-large finite values, and both infinities are rejected. -/
theorem validate_value_accepts_iff (p : Option PyFloat) (v : PyFloat) :
    validate_value p = Except.ok v ↔
      p = some v ∧
        (v = PyFloat.nan ∨ ∃ q : ℚ, v = PyFloat.finite q ∧ 0 < q ∧ q ≤ MAX_VALUE) := by
  cases p with
  | none => simp [validate_value]
  | some w =>
    cases w with
    | nan =>
      constructor
      · rintro h
        simp [validate_value, PyFloat.le, PyFloat.lt] at h
        exact ⟨by rw [h], Or.inl h.symm⟩
      · rintro ⟨h, _⟩
        cases h
        rfl
    | inf =>
      constructor
      · rintro h
        simp [validate_value, PyFloat.le, PyFloat.lt] at h
      · rintro ⟨h, hcase⟩
        cases h
        rcases hcase with h1 | ⟨q, hq, _, _⟩
        · exact PyFloat.noConfusion h1
        · exact PyFloat.noConfusion hq
    | negInf =>
      constructor
      · rintro h
        simp [validate_value, PyFloat.le, PyFloat.lt] at h
      · rintro ⟨h, hcase⟩
        cases h
        rcases hcase with h1 | ⟨q, hq, _, _⟩
        · exact PyFloat.noConfusion h1
        · exact PyFloat.noConfusion hq
    | finite q =>
      by_cases h1 : q ≤ 0
      · constructor
        · intro h
          simp [validate_value, PyFloat.le, h1] at h
        · rintro ⟨h, hcase⟩
          cases h
          rcases hcase with h2 | ⟨q2, hq2, hpos, _⟩
          · exact PyFloat.noConfusion h2
          · cases hq2
            exact absurd hpos (by simpa using h1)
      · by_cases h2 : MAX_VALUE < q
        · constructor
          · intro h
            simp [validate_value, PyFloat.le, PyFloat.lt, h1, h2] at h
          · rintro ⟨h, hcase⟩
            cases h
            rcases hcase with h3 | ⟨q2, hq2, _, hle⟩
            · exact PyFloat.noConfusion h3
            · cases hq2
              exact absurd hle (by simpa using h2)
        · have hacc : validate_value (some (PyFloat.finite q)) =
              Except.ok (PyFloat.finite q) := by
            simp [validate_value, PyFloat.le, PyFloat.lt, h1, h2]
          constructor
          · intro h
            rw [hacc] at h
            cases h
            exact ⟨rfl, Or.inr ⟨q, rfl, by simpa using lt_of_not_le h1,
              le_of_not_lt h2⟩⟩
          · rintro ⟨h, _⟩
            cases h
            exact hacc

/-! ## Claims -/

/-- C1, counterexample to the claim as stated: the analytics entry
(`AnalyticsHandler.analytics_button`) does not evaluate
`is_authorized`; an unauthorized user receives the analytics keyboard
prompt, not the fixed rejection reply. -/
theorem C1_analytics_no_auth_check :
    is_authorized [] 0 = false ∧
    (analytics_button 0 emptyStore).2 = [Reply.msg "Available analytics:"] ∧
    Reply.msg "Available analytics:" ≠ Reply.msg unauthorizedText := by
  refine ⟨rfl, rfl, ?_⟩
  decide

/-- C1, amended: the `/start`, currency-selection and help handlers
evaluate `is_authorized` first and, for a user off the allow-list, send
the fixed rejection reply and leave the session store untouched (in
particular an unauthorized `/start` neither creates nor overwrites a
session entry); the analytics entry performs no authorization check and
replies with the analytics menu to any user (it also performs no session
mutation). -/
theorem C1_entry_point_authorization (allow : List Nat) (uid : Nat)
    (st : UserStore) (text today ym : String)
    (h : is_authorized allow uid = false) :
    start allow uid st = (st, [Reply.msg unauthorizedText]) ∧
    handle_payment_type allow uid text today ym st = (st, [Reply.msg unauthorizedText]) ∧
    help_command allow uid st = (st, [Reply.msg unauthorizedText]) ∧
    analytics_button uid st = (st, [Reply.msg "Available analytics:"]) := by
  refine ⟨?_, ?_, ?_, rfl⟩ <;>
    simp [start, handle_payment_type, help_command, h]

/-- C1 witness: the amended theorem applied at a concrete unauthorized
user. -/
theorem C1_entry_point_authorization_witness :
    start [] 0 emptyStore = (emptyStore, [Reply.msg unauthorizedText]) ∧
    handle_payment_type [] 0 "RUB 🇷🇺" "2024-01-02" "2024-01" emptyStore =
      (emptyStore, [Reply.msg unauthorizedText]) ∧
    help_command [] 0 emptyStore = (emptyStore, [Reply.msg unauthorizedText]) ∧
    analytics_button 0 emptyStore = (emptyStore, [Reply.msg "Available analytics:"]) :=
  C1_entry_point_authorization [] 0 emptyStore "RUB 🇷🇺" "2024-01-02" "2024-01" rfl

/-- Claim C2, evaluation at the failing input: the Python call `float("nan")`
succeeds and yields NaN; NaN satisfies neither `num_value <= 0` nor
`num_value > MAX_VALUE` (IEEE comparisons with NaN are false), so
`validate_value` returns it and `handle_value` stores it in the session -
a stored value that is not a finite positive number, contradicting the
claim and the data-model invariant, while non-numeric text and infinite
parses are rejected as documented. -/
theorem C2_nan_accepted_and_stored :
    validate_value (some PyFloat.nan) = Except.ok PyFloat.nan ∧
    PyFloat.nan.isFinite = false ∧
    ((handle_value 7 (some PyFloat.nan)
        (setUser emptyStore 7 { Session.empty with step := some Step.value })).1 7) =
      some { Session.empty with step := some Step.description, value := some PyFloat.nan } ∧
    validate_value (some PyFloat.inf) =
      Except.error "Value must be between 0 and 10000000" ∧
    validate_value (some (PyFloat.finite 0)) =
      Except.error "Value must be between 0 and 10000000" ∧
    validate_value none = Except.error "Please enter a valid number" :=
  ⟨rfl, rfl, rfl, rfl, rfl, rfl⟩

/-- C3, counterexample to the claim as stated: for the input of one space
followed by 200 letters the stripped text is non-empty and its length is
exactly `MAX_DESCRIPTION_LENGTH`, so by the claim the input should be
accepted, yet `validate_description` rejects - the source checks the raw,
unstripped length (201 here). -/
theorem C3_untrimmed_length_rejected :
    (pyStrip exDescr).length = 200 ∧
    pyStrip exDescr ≠ "" ∧
    exDescr.length = 201 ∧
    validate_description exDescr =
      Except.error "Description cannot be longer than 200 characters" := by
  refine ⟨?_, ?_, ?_, ?_⟩
  · set_option maxRecDepth 4000 in decide
  · set_option maxRecDepth 4000 in decide
  · set_option maxRecDepth 4000 in decide
  · set_option maxRecDepth 4000 in rfl

/-- C3, amended: `validate_description d` rejects iff `trim(d)` is empty
or the length of the raw, untrimmed `d` exceeds
`MAX_DESCRIPTION_LENGTH`; in every other case it returns `trim(d)`. -/
theorem C3_validate_description_characterization (d r : String) :
    (validate_description d = Except.ok r ↔
      pyStrip d ≠ "" ∧ d.length ≤ MAX_DESCRIPTION_LENGTH ∧ r = pyStrip d) ∧
    (isErr (validate_description d) = true ↔
      pyStrip d = "" ∨ d.length > MAX_DESCRIPTION_LENGTH) := by
  unfold validate_description
  by_cases h1 : pyStrip d = "" <;> by_cases h2 : d.length > MAX_DESCRIPTION_LENGTH <;>
    simp [h1, h2, isErr]
  exact ⟨fun h => ⟨Nat.le_of_not_lt h2, h.symm⟩, fun h => h.2.symm⟩

/-- C4: on a non-empty sheet the delete trigger enters the
`delete_confirmation` state and captures the current row count
`db.length` as the pending target; a later `Yes` deletes the row at that
captured 1-based position even if rows `extra` were appended in between,
so the row removed is the old last row (`db.dropLast`), not the current
one. -/
theorem C4_delete_uses_stale_captured_position (uid : Nat) (s : Session)
    (st : UserStore) (db extra : List Row) (hdb : db ≠ [])
    (hs : st uid = some s) (hrow : 7 ≤ (db.getLastD []).length) :
    ((delete_last_row_confirm uid st db).1 uid =
      some { s with step := some Step.delete_confirmation,
                    last_row_index := some db.length }) ∧
    ((handle_delete_confirmation uid "Yes" true
        (delete_last_row_confirm uid st db).1 (db ++ extra)).2.1 =
      db.dropLast ++ extra) := by
  have hne : db.isEmpty = false := by
    simpa [List.isEmpty_iff] using hdb
  have hyes : pyLower "Yes" = "yes" := by decide
  have hrow2 : 7 ≤ (db.getLast?.getD []).length := by
    simpa [List.getLastD_eq_getLast?] using hrow
  have hst1 : (delete_last_row_confirm uid st db).1 =
      setUser st uid { s with step := some Step.delete_confirmation,
                              last_row_index := some db.length } := by
    simp [delete_last_row_confirm, hne, hrow2, hs]
  have hpos : 0 < db.length := List.length_pos.mpr hdb
  have hlen : db.length ≠ 0 := by omega
  refine ⟨by rw [hst1]; exact setUser_same .., ?_⟩
  rw [hst1]
  simp only [handle_delete_confirmation, hyes, if_pos, setUser_same]
  simp only [hlen, ne_eq, not_false_iff, if_pos, if_true]
  rw [eraseIdx_append_of_lt_length _ _ _ (by omega),
    eraseIdx_last_eq_dropLast]

/-- C4 witness: one captured row, one row appended in between; the
originally-last row is the one removed. -/
theorem C4_delete_uses_stale_captured_position_witness :
    ((delete_last_row_confirm 1 (setUser emptyStore 1 Session.empty) [rowA]).1 1 =
      some { Session.empty with step := some Step.delete_confirmation,
                                last_row_index := some (List.length [rowA]) }) ∧
    ((handle_delete_confirmation 1 "Yes" true
        (delete_last_row_confirm 1 (setUser emptyStore 1 Session.empty) [rowA]).1
        ([rowA] ++ [rowB])).2.1 =
      List.dropLast [rowA] ++ [rowB]) :=
  C4_delete_uses_stale_captured_position 1 Session.empty
    (setUser emptyStore 1 Session.empty) [rowA] [rowB]
    (by decide) rfl (by decide)

/-- C5, counterexample to the claim as stated: with the income sheet
holding `[header, rowA]` at request time (last position 2) and
`[header, rowA, rowB]` at confirmation time, the income handler deletes
position 3 (the re-derived current last row, `rowB`), while the expense
handler - whose session captured position 2 at request time - deletes
position 2 (`rowA`): the two flows do not remove the same relative
position. -/
theorem C5_income_delete_differs_from_expense :
    (handle_income_delete_confirmation 1 "Yes" true
        (setUser emptyStore 1
          { Session.empty with step := some Step.income_delete_confirmation })
        [hdrRow, rowA, rowB]).2.1 = [hdrRow, rowA] ∧
    (handle_delete_confirmation 1 "Yes" true
        (setUser emptyStore 1
          { Session.empty with step := some Step.delete_confirmation,
                               last_row_index := some 2 })
        [hdrRow, rowA, rowB]).2.1 = [hdrRow, rowB] ∧
    ([hdrRow, rowA] : List Row) ≠ [hdrRow, rowB] := by
  refine ⟨by decide, by decide, by decide⟩

/-- C5, amended: the income delete flow captures no row position at
request time (the session it writes holds only the step tag) and, at
confirmation, re-reads the sheet and deletes the **then-current** last
row (`dbConf.dropLast`), whatever the sheet held at request time and
whatever the session holds - unlike the expense flow, which deletes the
stale position captured at request time. -/
theorem C5_income_delete_rederives_position (allow : List Nat) (uid : Nat)
    (st st2 : UserStore) (dbReq dbConf : List Row)
    (hauth : is_authorized allow uid = true)
    (hreq : 1 < dbReq.length) (hconf : 1 < dbConf.length) :
    ((delete_last_income_row_confirm allow uid st dbReq).1 uid =
      some { Session.empty with step := some Step.income_delete_confirmation }) ∧
    ((handle_income_delete_confirmation uid "Yes" true st2 dbConf).2.1 =
      dbConf.dropLast) := by
  constructor
  · have hgt : ¬ dbReq.length ≤ 1 := by omega
    simp [delete_last_income_row_confirm, hauth, hgt, setUser_same]
  · simp [handle_income_delete_confirmation, hconf,
      eraseIdx_last_eq_dropLast]

/-- C5 witness: the amended theorem at the concrete scenario of the
counterexample. -/
theorem C5_income_delete_rederives_position_witness :
    ((delete_last_income_row_confirm [1] 1 emptyStore [hdrRow, rowA]).1 1 =
      some { Session.empty with step := some Step.income_delete_confirmation }) ∧
    ((handle_income_delete_confirmation 1 "Yes" true emptyStore
        [hdrRow, rowA, rowB]).2.1 = List.dropLast [hdrRow, rowA, rowB]) :=
  C5_income_delete_rederives_position [1] 1 emptyStore emptyStore
    [hdrRow, rowA] [hdrRow, rowA, rowB] rfl (by decide) (by decide)

/-- C6: in the confirmation state (session fields accumulated), sending
`Yes` appends exactly one row in the fixed order
`(date, value, description, category, payment_type, year_month,
user_label)`, sending `No` appends zero rows, and both branches reset the
session to the `payment_type` step. -/
theorem C6_confirmation_append_order_and_reset (uid : Nat) (st : UserStore)
    (s : Session) (db : List Row) (username : Option String)
    (d ds c p ym : String) (v : PyFloat)
    (hs : st uid = some s) (hd : s.date = some d) (hv : s.value = some v)
    (hds : s.description = some ds) (hc : s.category = some c)
    (hp : s.payment_type = some p) (hym : s.year_month = some ym) :
    handle_confirmation uid "Yes" username true st db =
      (setUser st uid { Session.empty with step := some Step.payment_type },
       db ++ [[Cell.str d, Cell.num v, Cell.str ds, Cell.str c, Cell.str p,
               Cell.str ym, Cell.str (username.getD "No username")]],
       [Reply.msg "✅ Expense recorded successfully!"]) ∧
    handle_confirmation uid "No" username true st db =
      (setUser st uid { Session.empty with step := some Step.payment_type },
       db, [Reply.msg "Expense recording cancelled. Choose payment type:"]) := by
  have hno : ("No" : String) ≠ "Yes" := by decide
  constructor
  · simp [handle_confirmation, hs, hd, hv, hds, hc, hp, hym]
  · simp [handle_confirmation, hno]

/-- C6 witness: a concrete confirmed purchase and a concrete declined
one. -/
theorem C6_confirmation_append_order_and_reset_witness :
    handle_confirmation 1 "Yes" (some "alice") true
      (setUser emptyStore 1
        { Session.empty with
            step := some Step.confirmation,
            date := some "2024-01-02", value := some (PyFloat.finite (301/2)),
            description := some "groceries", category := some "Products",
            payment_type := some "RUB", year_month := some "2024-01" }) [] =
      (setUser (setUser emptyStore 1
        { Session.empty with
            step := some Step.confirmation,
            date := some "2024-01-02", value := some (PyFloat.finite (301/2)),
            description := some "groceries", category := some "Products",
            payment_type := some "RUB", year_month := some "2024-01" })
        1 { Session.empty with step := some Step.payment_type },
       [] ++ [[Cell.str "2024-01-02", Cell.num (PyFloat.finite (301/2)),
               Cell.str "groceries", Cell.str "Products", Cell.str "RUB",
               Cell.str "2024-01", Cell.str ((some "alice").getD "No username")]],
       [Reply.msg "✅ Expense recorded successfully!"]) ∧
    handle_confirmation 1 "No" (some "alice") true
      (setUser emptyStore 1
        { Session.empty with
            step := some Step.confirmation,
            date := some "2024-01-02", value := some (PyFloat.finite (301/2)),
            description := some "groceries", category := some "Products",
            payment_type := some "RUB", year_month := some "2024-01" }) [] =
      (setUser (setUser emptyStore 1
        { Session.empty with
            step := some Step.confirmation,
            date := some "2024-01-02", value := some (PyFloat.finite (301/2)),
            description := some "groceries", category := some "Products",
            payment_type := some "RUB", year_month := some "2024-01" })
        1 { Session.empty with step := some Step.payment_type },
       [], [Reply.msg "Expense recording cancelled. Choose payment type:"]) :=
  C6_confirmation_append_order_and_reset 1
    (setUser emptyStore 1
      { Session.empty with
          step := some Step.confirmation,
          date := some "2024-01-02", value := some (PyFloat.finite (301/2)),
          description := some "groceries", category := some "Products",
          payment_type := some "RUB", year_month := some "2024-01" })
    { Session.empty with
        step := some Step.confirmation,
        date := some "2024-01-02", value := some (PyFloat.finite (301/2)),
        description := some "groceries", category := some "Products",
        payment_type := some "RUB", year_month := some "2024-01" }
    [] (some "alice") "2024-01-02" "groceries" "Products" "RUB" "2024-01"
    (PyFloat.finite (301/2)) rfl rfl rfl rfl rfl rfl rfl

/-- C7, counterexample to the claim as stated: a successfully confirmed
income entry resets the session to the empty dict, whose step is absent -
not to the `payment_type` step the claim names; and on a failing income
append the session is not reset at all (last conjunct: the stored session
is unchanged, still holding the accumulated fields in the
`income_confirmation` state). -/
theorem C7_income_reset_not_payment_type :
    ((handle_income_confirmation 1 "Yes" "u" "2024-01-02" "2024-01" true
        stIncomeConf []).1 1 = some Session.empty) ∧
    Session.empty.step = none ∧
    some Session.empty ≠
      some { Session.empty with step := some Step.payment_type } ∧
    ((handle_income_confirmation 1 "Yes" "u" "2024-01-02" "2024-01" false
        stIncomeConf []).1 1 = some sessIncomeConf) := by
  refine ⟨rfl, rfl, by decide, rfl⟩

/-- C7, amended: the expense flow resets the session to
`{"step": "payment_type"}` after every terminal transition - confirmation
accepted or declined with any text, delete confirmed or cancelled, and
also when the sheet append or delete fails (those handlers reset in
`finally`).  The income flow resets the session to the **empty** dict on
its non-raising terminal transitions (confirmation accepted with
successful append, confirmation declined, delete confirmed with
successful delete, delete declined); but when the income sheet call
raises (failing append or delete), the income handlers catch the
exception before their reset line and leave the session store unchanged,
still holding the accumulated fields. -/
theorem C7_terminal_session_resets (uid : Nat) (st : UserStore) (s : Session)
    (db : List Row) (username : Option String) (text : String)
    (userLabel today ym : String) (ok : Bool)
    (v : PyFloat) (ds ty p : String)
    (hs : st uid = some s) (hv : s.value = some v)
    (hds : s.description = some ds) (hty : s.type = some ty)
    (hp : s.payment_type = some p) (hdb : 1 < db.length) :
    ((handle_confirmation uid text username ok st db).1 uid =
      some { Session.empty with step := some Step.payment_type }) ∧
    ((handle_delete_confirmation uid text ok st db).1 uid =
      some { Session.empty with step := some Step.payment_type }) ∧
    ((handle_income_confirmation uid "Yes" userLabel today ym true st db).1 uid =
      some Session.empty) ∧
    ((handle_income_confirmation uid "No" userLabel today ym ok st db).1 uid =
      some Session.empty) ∧
    ((handle_income_delete_confirmation uid "Yes" true st db).1 uid =
      some Session.empty) ∧
    ((handle_income_delete_confirmation uid "No" ok st db).1 uid =
      some Session.empty) ∧
    ((handle_income_confirmation uid "Yes" userLabel today ym false st db).1 = st) ∧
    ((handle_income_delete_confirmation uid "Yes" false st db).1 = st) := by
  have hno : ("No" : String) ≠ "Yes" := by decide
  refine ⟨?_, ?_, ?_, ?_, ?_, ?_, ?_, ?_⟩
  · rw [handle_confirmation_fst]; exact setUser_same ..
  · rw [handle_delete_confirmation_fst]; exact setUser_same ..
  · simp [handle_income_confirmation, hs, hv, hds, hty, hp, setUser_same]
  · simp [handle_income_confirmation, hno, setUser_same]
  · simp [handle_income_delete_confirmation, hdb, setUser_same]
  · simp [handle_income_delete_confirmation, hno, setUser_same]
  · simp [handle_income_confirmation, hs, hv, hds, hty, hp]
  · simp [handle_income_delete_confirmation, hdb]

/-- C7 witness: the amended theorem at a concrete session
(`sessIncomeConf` for user 1) and a two-row sheet. -/
theorem C7_terminal_session_resets_witness :
    ((handle_confirmation 1 "No" (some "alice") true stIncomeConf
        [hdrRow, rowA]).1 1 =
      some { Session.empty with step := some Step.payment_type }) ∧
    ((handle_delete_confirmation 1 "No" true stIncomeConf [hdrRow, rowA]).1 1 =
      some { Session.empty with step := some Step.payment_type }) ∧
    ((handle_income_confirmation 1 "Yes" "alice" "2024-01-02" "2024-01" true
        stIncomeConf [hdrRow, rowA]).1 1 = some Session.empty) ∧
    ((handle_income_confirmation 1 "No" "alice" "2024-01-02" "2024-01" true
        stIncomeConf [hdrRow, rowA]).1 1 = some Session.empty) ∧
    ((handle_income_delete_confirmation 1 "Yes" true stIncomeConf
        [hdrRow, rowA]).1 1 = some Session.empty) ∧
    ((handle_income_delete_confirmation 1 "No" true stIncomeConf
        [hdrRow, rowA]).1 1 = some Session.empty) ∧
    ((handle_income_confirmation 1 "Yes" "alice" "2024-01-02" "2024-01" false
        stIncomeConf [hdrRow, rowA]).1 = stIncomeConf) ∧
    ((handle_income_delete_confirmation 1 "Yes" false stIncomeConf
        [hdrRow, rowA]).1 = stIncomeConf) :=
  C7_terminal_session_resets 1 stIncomeConf sessIncomeConf [hdrRow, rowA]
    (some "alice") "No" "alice" "2024-01-02" "2024-01" true
    (PyFloat.finite 5) "salary" "Зарплата" "RUB"
    rfl rfl rfl rfl rfl (by decide)

/-- C8: an input that fails validation in the `value`, `description` or
`category` state leaves the whole session store (state and accumulated
fields) unchanged - the handler only replies with the error message - and
appends no row (these three handlers never touch the sheet, which is why
they neither take nor return one); in particular processing the same
invalid value twice returns the unchanged store both times, so a session
in the `value` state is still in the `value` state after both. -/
theorem C8_invalid_input_preserves_session (uid : Nat) (st : UserStore)
    (p : Option PyFloat) (d : String) (cats : List String) (c : String)
    (e1 e2 : String)
    (hv : validate_value p = Except.error e1)
    (hd : validate_description d = Except.error e2)
    (hc : c ∉ cats) :
    handle_value uid p st = (st, [Reply.msg e1]) ∧
    handle_description uid d st = (st, [Reply.msg e2]) ∧
    handle_category cats uid c st =
      (st, [Reply.msg "Invalid category. Please choose a valid category."]) ∧
    (handle_value uid p (handle_value uid p st).1).1 = st ∧
    stepOf (handle_value uid p (handle_value uid p st).1).1 uid = stepOf st uid := by
  refine ⟨?_, ?_, ?_, ?_, ?_⟩ <;>
    simp [handle_value, handle_description, handle_category, hv, hd, hc]

/-- C8 witness: a non-positive value, an all-whitespace description and
an unknown category, against a session sitting in the `value` state. -/
theorem C8_invalid_input_preserves_session_witness :
    handle_value 1 (some (PyFloat.finite 0))
        (setUser emptyStore 1 { Session.empty with step := some Step.value }) =
      (setUser emptyStore 1 { Session.empty with step := some Step.value },
       [Reply.msg "Value must be between 0 and 10000000"]) ∧
    handle_description 1 "   "
        (setUser emptyStore 1 { Session.empty with step := some Step.value }) =
      (setUser emptyStore 1 { Session.empty with step := some Step.value },
       [Reply.msg "Description cannot be empty"]) ∧
    handle_category ["Products"] 1 "NotACategory"
        (setUser emptyStore 1 { Session.empty with step := some Step.value }) =
      (setUser emptyStore 1 { Session.empty with step := some Step.value },
       [Reply.msg "Invalid category. Please choose a valid category."]) ∧
    (handle_value 1 (some (PyFloat.finite 0))
        (handle_value 1 (some (PyFloat.finite 0))
          (setUser emptyStore 1 { Session.empty with step := some Step.value })).1).1 =
      setUser emptyStore 1 { Session.empty with step := some Step.value } ∧
    stepOf (handle_value 1 (some (PyFloat.finite 0))
        (handle_value 1 (some (PyFloat.finite 0))
          (setUser emptyStore 1 { Session.empty with step := some Step.value })).1).1 1 =
      stepOf (setUser emptyStore 1 { Session.empty with step := some Step.value }) 1 :=
  C8_invalid_input_preserves_session 1
    (setUser emptyStore 1 { Session.empty with step := some Step.value })
    (some (PyFloat.finite 0)) "   " ["Products"] "NotACategory"
    "Value must be between 0 and 10000000" "Description cannot be empty"
    rfl rfl (by decide)

/-- C9: the delete-confirmation registration predicate has no text
filter (it accepts every message text whenever the step is
`delete_confirmation`), whereas the purchase-confirmation predicate
rejects anything but exactly `Yes` or `No` - even the lowercase `yes`.
In the handler, any text whose `lower()` is `yes` performs the deletion
at the captured position and every other text (including `No`) reports
cancellation; both outcomes reset the session to the `payment_type`
step. -/
theorem C9_delete_confirmation_accepts_any_text (uid : Nat) (st : UserStore)
    (s : Session) (n : Nat) (db : List Row) (t t2 u : String)
    (hs : st uid = some s) (hstep : s.step = some Step.delete_confirmation)
    (hn : s.last_row_index = some n) (hn0 : n ≠ 0)
    (hyes : pyLower t = "yes") (hno : pyLower t2 ≠ "yes") :
    accepts_delete_confirmation st uid u = true ∧
    accepts_confirmation (setUser st uid
      { s with step := some Step.confirmation }) uid "yes" = false ∧
    accepts_confirmation (setUser st uid
      { s with step := some Step.confirmation }) uid "Yes" = true ∧
    handle_delete_confirmation uid t true st db =
      (setUser st uid { Session.empty with step := some Step.payment_type },
       db.eraseIdx (n - 1), [Reply.msg "✅ Last row deleted successfully!"]) ∧
    handle_delete_confirmation uid t2 true st db =
      (setUser st uid { Session.empty with step := some Step.payment_type },
       db, [Reply.msg "Deletion cancelled."]) := by
  refine ⟨?_, ?_, ?_, ?_, ?_⟩
  · simp [accepts_delete_confirmation, stepOf, hs, hstep]
  · simp [accepts_confirmation, stepOf, setUser_same]
  · simp [accepts_confirmation, stepOf, setUser_same]
  · simp [handle_delete_confirmation, hyes, hs, hn, hn0]
  · simp [handle_delete_confirmation, hno, hs, hn, hn0]

/-- C9 witness: uppercase `YES` deletes, `No` cancels, and the arbitrary
text `whatever` passes the delete-confirmation predicate. -/
theorem C9_delete_confirmation_accepts_any_text_witness :
    accepts_delete_confirmation
      (setUser emptyStore 1
        { Session.empty with
            step := some Step.delete_confirmation, last_row_index := some 1 })
      1 "whatever" = true ∧
    accepts_confirmation (setUser
      (setUser emptyStore 1
        { Session.empty with
            step := some Step.delete_confirmation, last_row_index := some 1 })
      1 { { Session.empty with
              step := some Step.delete_confirmation, last_row_index := some 1 }
            with step := some Step.confirmation }) 1 "yes" = false ∧
    accepts_confirmation (setUser
      (setUser emptyStore 1
        { Session.empty with
            step := some Step.delete_confirmation, last_row_index := some 1 })
      1 { { Session.empty with
              step := some Step.delete_confirmation, last_row_index := some 1 }
            with step := some Step.confirmation }) 1 "Yes" = true ∧
    handle_delete_confirmation 1 "YES" true
      (setUser emptyStore 1
        { Session.empty with
            step := some Step.delete_confirmation, last_row_index := some 1 })
      [rowA] =
      (setUser (setUser emptyStore 1
        { Session.empty with
            step := some Step.delete_confirmation, last_row_index := some 1 })
        1 { Session.empty with step := some Step.payment_type },
       List.eraseIdx [rowA] (1 - 1),
       [Reply.msg "✅ Last row deleted successfully!"]) ∧
    handle_delete_confirmation 1 "No" true
      (setUser emptyStore 1
        { Session.empty with
            step := some Step.delete_confirmation, last_row_index := some 1 })
      [rowA] =
      (setUser (setUser emptyStore 1
        { Session.empty with
            step := some Step.delete_confirmation, last_row_index := some 1 })
        1 { Session.empty with step := some Step.payment_type },
       [rowA], [Reply.msg "Deletion cancelled."]) :=
  C9_delete_confirmation_accepts_any_text 1
    (setUser emptyStore 1
      { Session.empty with
          step := some Step.delete_confirmation, last_row_index := some 1 })
    { Session.empty with
        step := some Step.delete_confirmation, last_row_index := some 1 }
    1 [rowA] "YES" "No" "whatever"
    rfl rfl rfl (by decide) (by decide) (by decide)

/-- C10: the expense delete trigger for a user with no session entry, on
a non-empty sheet, does not enter the `delete_confirmation` state and
does not create a session entry: `user_data[uid]["step"] = ...` raises
`KeyError` (a plain dict lookup does not insert) and the catch-all of the handler
catch-all turns it into the fixed failure reply, leaving the store
without an entry for that user. -/
theorem C10_delete_trigger_without_session (uid : Nat) (st : UserStore)
    (db : List Row) (u : String)
    (hnone : st uid = none) (hdb : db ≠ []) :
    delete_last_row_confirm uid st db = (st, [Reply.msg failPrepareText]) ∧
    (delete_last_row_confirm uid st db).1 uid = none ∧
    accepts_delete_confirmation (delete_last_row_confirm uid st db).1 uid u =
      false := by
  have hne : db.isEmpty = false := by
    simpa [List.isEmpty_iff] using hdb
  have h1 : delete_last_row_confirm uid st db = (st, [Reply.msg failPrepareText]) := by
    simp [delete_last_row_confirm, hne, hnone]
  refine ⟨h1, by rw [h1]; exact hnone, ?_⟩
  rw [h1]
  simp [accepts_delete_confirmation, stepOf, hnone]

/-- C10 witness: user 3, no session, one-row sheet. -/
theorem C10_delete_trigger_without_session_witness :
    delete_last_row_confirm 3 emptyStore [rowA] =
      (emptyStore, [Reply.msg failPrepareText]) ∧
    (delete_last_row_confirm 3 emptyStore [rowA]).1 3 = none ∧
    accepts_delete_confirmation (delete_last_row_confirm 3 emptyStore [rowA]).1
      3 "Yes" = false :=
  C10_delete_trigger_without_session 3 emptyStore [rowA] "Yes" rfl (by decide)
